import Mathlib

set_option maxHeartbeats 1000000

/-!
Verification development for the chess-x402 best-move service
(src/src/index.ts). The service exposes a single payment-gated route
`GET /best-move` that validates query parameters with a zod schema,
issues an outbound HTTP GET to the Stockfish analysis API, validates the
upstream JSON body against a discriminated-union schema, and translates
every outcome to an HTTP status plus JSON body.

The embedding below mirrors the source: JSON values are a small inductive
type, zod schemas become explicit parse functions returning `Except` with
issue lists, and the handler's try/catch structure becomes a total
function from the outcome of the outbound fetch to the HTTP response.
-/

/-- JSON values. Numbers are modelled as rationals (JavaScript numbers in the
responses of interest are decimal literals such as 0.5). -/
inductive Json where
  | null : Json
  | bool : Bool → Json
  | num : Rat → Json
  | str : String → Json
  | arr : List Json → Json
  | obj : List (String × Json) → Json

/-- Field lookup in a JSON object's field list (JavaScript object keys are
unique; first match). -/
def lookupField : List (String × Json) → String → Option Json
  | [], _ => none
  | (k, v) :: rest, key => if k == key then some v else lookupField rest key

/-- Field lookup on a JSON value: `none` unless the value is an object
containing the key. -/
def jsonField (j : Json) (key : String) : Option Json :=
  match j with
  | Json.obj fs => lookupField fs key
  | _ => none

/-- A single zod validation issue: the path of the offending field and a
message, as collected in `ZodError.issues` (the `details` list). -/
structure ZodIssue where
  path : List String
  message : String

/-- Render a zod issue as JSON, as `c.json` serializes `error.issues`. -/
def renderIssue (i : ZodIssue) : Json :=
  Json.obj [("path", Json.arr (i.path.map Json.str)), ("message", Json.str i.message)]

/-- The validated upstream analysis result: the discriminated union
`responseSchema` of src/src/index.ts (tag field `success`). -/
inductive AnalysisResult where
  | success (evaluation : Rat) (bestmove : String) (mate : Option Rat) : AnalysisResult
  | failure (error : String) : AnalysisResult

/-- zod check `evaluation: z.number()` on the looked-up field. A missing
field or a non-number both produce an invalid-type issue. -/
def checkEvaluation : Option Json → Except ZodIssue Rat
  | some (Json.num q) => Except.ok q
  | _ => Except.error ⟨["evaluation"], "invalid_type"⟩

/-- zod check `bestmove: z.string()` on the looked-up field. -/
def checkBestmove : Option Json → Except ZodIssue String
  | some (Json.str s) => Except.ok s
  | _ => Except.error ⟨["bestmove"], "invalid_type"⟩

/-- zod check `mate: z.number().nullable()` on the looked-up field. -/
def checkMate : Option Json → Except ZodIssue (Option Rat)
  | some Json.null => Except.ok none
  | some (Json.num q) => Except.ok (some q)
  | _ => Except.error ⟨["mate"], "invalid_type"⟩

/-- zod check `error: z.string()` on the looked-up field. -/
def checkErrorField : Option Json → Except ZodIssue String
  | some (Json.str s) => Except.ok s
  | _ => Except.error ⟨["error"], "invalid_type"⟩

/-- Issues contributed by one field check. -/
def issuesOf {α : Type} : Except ZodIssue α → List ZodIssue
  | Except.ok _ => []
  | Except.error i => [i]

/-- `responseSchema.parse` of src/src/index.ts: zod's discriminated-union
parse on tag `success`. A non-object input or an unrecognized discriminator
value yields one issue; a matched variant validates its remaining fields,
collecting one issue per violated field. On success the parsed structure
keeps the field values unchanged (unknown keys are stripped, as zod objects
do by default). -/
def parseAnalysisResult (j : Json) : Except (List ZodIssue) AnalysisResult :=
  match j with
  | Json.obj fs =>
    match lookupField fs "success" with
    | some (Json.bool true) =>
      match checkEvaluation (lookupField fs "evaluation"),
            checkBestmove (lookupField fs "bestmove"),
            checkMate (lookupField fs "mate") with
      | Except.ok e, Except.ok b, Except.ok m => Except.ok (AnalysisResult.success e b m)
      | Except.error i, r2, r3 => Except.error (i :: (issuesOf r2 ++ issuesOf r3))
      | Except.ok _, Except.error i, r3 => Except.error (i :: issuesOf r3)
      | Except.ok _, Except.ok _, Except.error i => Except.error [i]
    | some (Json.bool false) =>
      match checkErrorField (lookupField fs "error") with
      | Except.ok msg => Except.ok (AnalysisResult.failure msg)
      | Except.error i => Except.error [i]
    | _ => Except.error [⟨["success"], "invalid_union_discriminator"⟩]
  | _ => Except.error [⟨[], "invalid_type"⟩]

/-- Serialization of a validated `AnalysisResult` by `c.json(validatedData)`:
the parsed object with the schema's fields in declaration order. -/
def renderResult : AnalysisResult → Json
  | AnalysisResult.success e b m =>
    Json.obj [("success", Json.bool true), ("evaluation", Json.num e),
              ("bestmove", Json.str b),
              ("mate", match m with | none => Json.null | some q => Json.num q)]
  | AnalysisResult.failure err =>
    Json.obj [("success", Json.bool false), ("error", Json.str err)]

/-- The canonical JSON body of the success variant (exactly the schema's
fields, in order). -/
def successJson (e : Rat) (b : String) (m : Option Rat) : Json :=
  Json.obj [("success", Json.bool true), ("evaluation", Json.num e),
            ("bestmove", Json.str b),
            ("mate", match m with | none => Json.null | some q => Json.num q)]

/-- The canonical JSON body of the failure variant. -/
def failureJson (err : String) : Json :=
  Json.obj [("success", Json.bool false), ("error", Json.str err)]

/-- `response.ok` of the Fetch API: status in the inclusive range 200-299. -/
def respOk (status : Nat) : Bool :=
  (200 ≤ status && status ≤ 299)

/-- The response body for the `!response.ok` branch of the handler. -/
def upstreamErrBody (status : Nat) (statusText : String) : Json :=
  Json.obj [("success", Json.bool false),
            ("error", Json.str ("Stockfish API returned " ++ toString status ++ ": " ++ statusText))]

/-- The response body for the `error instanceof z.ZodError` catch branch. -/
def schemaErrBody (issues : List ZodIssue) : Json :=
  Json.obj [("success", Json.bool false),
            ("error", Json.str "Invalid response format from Stockfish API"),
            ("details", Json.arr (issues.map renderIssue))]

/-- The response body of the final catch-all branch:
`error instanceof Error ? error.message : "Unknown error occurred"`.
A thrown value is modelled as `Option String`: `some m` is an `Error`
instance with message `m`, `none` a non-`Error` thrown value. -/
def catchAllBody (msg : Option String) : Json :=
  Json.obj [("success", Json.bool false),
            ("error", Json.str (match msg with | some m => m | none => "Unknown error occurred"))]

/-- Outcome of the outbound `fetch` as observed by the handler:
either the fetch threw (transport failure), or a response arrived with a
status, a status text, and a body that `response.json()` either parses to
a `Json` value or fails on (the parse failure throws an `Error`, modelled
by its optional message). -/
inductive FetchOutcome where
  | thrown (msg : Option String) : FetchOutcome
  | response (status : Nat) (statusText : String) (body : Except (Option String) Json) : FetchOutcome

/-- An HTTP response produced by the route: status code and JSON body. -/
structure HttpResponse where
  status : Nat
  body : Json

/-- The `/best-move` handler body (src/src/index.ts lines 77-119) as a
function of the fetch outcome. Mirrors the try/catch: a non-ok status
returns the upstream-error 500 before the body is read; a body parse
failure throws a non-ZodError and lands in the catch-all; a
`responseSchema.parse` failure throws a ZodError and returns the
schema-error 500 with `details`; otherwise the validated data is returned
with status 200. -/
def bestMoveHandler (outcome : FetchOutcome) : HttpResponse :=
  match outcome with
  | FetchOutcome.thrown m => ⟨500, catchAllBody m⟩
  | FetchOutcome.response status statusText body =>
    if !(respOk status) then
      ⟨500, upstreamErrBody status statusText⟩
    else
      match body with
      | Except.error m => ⟨500, catchAllBody m⟩
      | Except.ok j =>
        match parseAnalysisResult j with
        | Except.error issues => ⟨500, schemaErrBody issues⟩
        | Except.ok r => ⟨200, renderResult r⟩

/-- Raw query parameters of an incoming request: each of the two keys is
either absent or present with a string value (query values are always
strings; `?fen=` yields the empty string). -/
structure QueryParams where
  fen : Option String
  depth : Option String

/-- The validated query: `{ fen, depth }` as bound by `c.req.valid` in the
handler. -/
structure AnalysisRequest where
  fen : String
  depth : String

/-- The zValidator query schema of src/src/index.ts lines 70-76:
`z.object({ fen: z.string(), depth: z.string().optional().default("10") })`.
`z.string()` fails only when the key is absent (query values are always
strings, the empty string included); `depth` defaults to "10" when absent. -/
def parseQuery (q : QueryParams) : Except (List ZodIssue) AnalysisRequest :=
  match q.fen with
  | none => Except.error [⟨["fen"], "invalid_type"⟩]
  | some f => Except.ok ⟨f, match q.depth with | none => "10" | some d => d⟩

/-- Hexadecimal digit character (uppercase), for percent-encoding. -/
def hexDigitChar (n : Nat) : Char :=
  if n < 10 then Char.ofNat (48 + n) else Char.ofNat (55 + n)

/-- Percent-encoding of one byte: `%XY`. -/
def percentEncodeByte (b : Nat) : List Char :=
  [Char.ofNat 37, hexDigitChar (b / 16), hexDigitChar (b % 16)]

/-- UTF-8 byte sequence of a Unicode code point. -/
def utf8Bytes (n : Nat) : List Nat :=
  if n < 128 then [n]
  else if n < 2048 then [192 + n / 64, 128 + n % 64]
  else if n < 65536 then [224 + n / 4096, 128 + (n / 64) % 64, 128 + n % 64]
  else [240 + n / 262144, 128 + (n / 4096) % 64, 128 + (n / 64) % 64, 128 + n % 64]

/-- The characters `encodeURIComponent` leaves unescaped (ECMA-262):
letters, digits, and `- _ . ! ~ * ' ( )`. -/
def isUriUnescaped (c : Char) : Bool :=
  let n := c.toNat
  (65 ≤ n && n ≤ 90) || (97 ≤ n && n ≤ 122) || (48 ≤ n && n ≤ 57) ||
  n == 45 || n == 95 || n == 46 || n == 33 || n == 126 ||
  n == 42 || n == 39 || n == 40 || n == 41

/-- Encoding of a single character under `encodeURIComponent`. -/
def encodeChar (c : Char) : List Char :=
  if isUriUnescaped c then [c] else (utf8Bytes c.toNat).flatMap percentEncodeByte

/-- JavaScript's `encodeURIComponent`. -/
def encodeURIComponent (s : String) : String :=
  String.mk (s.data.flatMap encodeChar)

/-- The fixed upstream endpoint prefix of the constructed URL. -/
def urlBase : String :=
  "https://stockfish.online/api/s/v2.php?fen="

/-- The constructed upstream URL (src/src/index.ts line 82): the fixed
endpoint, the URL-encoded `fen`, and `depth` appended verbatim. -/
def buildUrl (fen depth : String) : String :=
  urlBase ++ encodeURIComponent fen ++ "&depth=" ++ depth

/-- The body zValidator's default hook returns on validation failure
(HTTP 400 with the zod error serialized). -/
def zodErrorBody (issues : List ZodIssue) : Json :=
  Json.obj [("success", Json.bool false), ("error", Json.arr (issues.map renderIssue))]

/-- The full `/best-move` route: zValidator runs first; on failure it
responds 400 and the handler (and hence the outbound fetch) never runs.
The outbound call is modelled by a function from the constructed URL to a
fetch outcome. -/
def bestMoveRoute (q : QueryParams) (fetchOf : String → FetchOutcome) : HttpResponse :=
  match parseQuery q with
  | Except.error issues => ⟨400, zodErrorBody issues⟩
  | Except.ok req => bestMoveHandler (fetchOf (buildUrl req.fen req.depth))

/-- Result of process startup: exit with a code, or serve on a port. -/
inductive StartupResult where
  | exit (code : Nat) : StartupResult
  | serve (port : Nat) : StartupResult
deriving DecidableEq

/-- JavaScript truthiness of an environment value: `undefined` and the
empty string are falsy, every other string truthy. -/
def truthy : Option String → Bool
  | none => false
  | some s => s ≠ ""

/-- The startup check of src/src/index.ts lines 10-17 and the export at the
end: `if (!facilitatorUrl || !payTo || !network) process.exit(1)`, else the
app serves on port 4021. -/
def startup (facilitatorUrl payTo network : Option String) : StartupResult :=
  if !truthy facilitatorUrl || !truthy payTo || !truthy network then
    StartupResult.exit 1
  else
    StartupResult.serve 4021

/-- Acceptance of the `inputSchema` of src/src/index.ts lines 20-23, the
schema published in the payment gate's discovery manifest via
`inputSchemaToX402(inputSchema)`:
`z.object({ fen: z.string(), depth: z.number().optional().default(10) })`. -/
def inputSchemaAccepts (j : Json) : Bool :=
  match j with
  | Json.obj fs =>
    (match lookupField fs "fen" with | some (Json.str _) => true | _ => false)
    && (match lookupField fs "depth" with
        | none => true
        | some (Json.num _) => true
        | _ => false)
  | _ => false

/-- Parse under `inputSchema`: `depth` defaults to the number 10. -/
def inputSchemaParse (j : Json) : Option (String × Json) :=
  match j with
  | Json.obj fs =>
    match lookupField fs "fen", lookupField fs "depth" with
    | some (Json.str f), none => some (f, Json.num 10)
    | some (Json.str f), some (Json.num d) => some (f, Json.num d)
    | _, _ => none
  | _ => none

/-- Acceptance of the zValidator query schema of src/src/index.ts lines
70-76, viewed as a JSON-value validator for comparison with the manifest
schema: `depth` must be a string when present. -/
def querySchemaAccepts (j : Json) : Bool :=
  match j with
  | Json.obj fs =>
    (match lookupField fs "fen" with | some (Json.str _) => true | _ => false)
    && (match lookupField fs "depth" with
        | none => true
        | some (Json.str _) => true
        | _ => false)
  | _ => false

/-- Parse under the query schema: `depth` defaults to the string "10". -/
def querySchemaParse (j : Json) : Option (String × Json) :=
  match j with
  | Json.obj fs =>
    match lookupField fs "fen", lookupField fs "depth" with
    | some (Json.str f), none => some (f, Json.str "10")
    | some (Json.str f), some (Json.str d) => some (f, Json.str d)
    | _, _ => none
  | _ => none

/-- Whether `pat` is a prefix of `s` (character lists). -/
def headMatches : List Char → List Char → Bool
  | [], _ => true
  | _ :: _, [] => false
  | p :: ps, c :: cs => p == c && headMatches ps cs

/-- Number of positions of `s` at which `pat` occurs as a substring. -/
def countOccur (pat : List Char) : List Char → Nat
  | [] => if headMatches pat [] then 1 else 0
  | c :: cs => (if headMatches pat (c :: cs) then 1 else 0) + countOccur pat cs

/-! ## Helper lemmas -/

theorem headMatches_append (pat rest : List Char) : headMatches pat (pat ++ rest) = true := by
  induction pat with
  | nil => rfl
  | cons p ps ih => simp [headMatches, ih]

theorem countOccur_pos_of_headMatches (pat s : List Char) (h : headMatches pat s = true) :
    0 < countOccur pat s := by
  cases s with
  | nil => simp [countOccur, h]
  | cons c cs => simp [countOccur, h]

theorem countOccur_append_pos (a pat b : List Char) : 0 < countOccur pat (a ++ (pat ++ b)) := by
  induction a with
  | nil => exact countOccur_pos_of_headMatches _ _ (headMatches_append pat b)
  | cons c a ih =>
    have h1 : countOccur pat ((c :: a) ++ (pat ++ b))
        = (if headMatches pat (c :: (a ++ (pat ++ b))) then 1 else 0)
          + countOccur pat (a ++ (pat ++ b)) := rfl
    rw [h1]
    exact Nat.lt_of_lt_of_le ih (Nat.le_add_left _ _)

theorem countOccur_pos_of_parts (pat a b s : List Char) (h : s = a ++ (pat ++ b)) :
    0 < countOccur pat s :=
  h ▸ countOccur_append_pos a pat b

theorem parseAnalysisResult_error_ne_nil (j : Json) (l : List ZodIssue)
    (h : parseAnalysisResult j = Except.error l) : l ≠ [] := by
  unfold parseAnalysisResult at h
  repeat' split at h
  all_goals first
    | exact Except.noConfusion h
    | (injection h with h2; subst h2; simp)

/-! ## Claim theorems -/

/-- Claim C1: for every upstream response with a 2xx status whose JSON body
matches either variant of the AnalysisResult discriminated union, the
handler responds with HTTP 200 and the validated structure, the failure
variant included; on the canonical variant bodies the response body is the
upstream body unchanged, with evaluation, bestmove and mate untransformed. -/
theorem c1_success_passthrough (status : Nat) (t : String) (h : respOk status = true) :
    (∀ j r, parseAnalysisResult j = Except.ok r →
      bestMoveHandler (FetchOutcome.response status t (Except.ok j)) = ⟨200, renderResult r⟩)
    ∧ (∀ e b m, parseAnalysisResult (successJson e b m) = Except.ok (AnalysisResult.success e b m)
        ∧ bestMoveHandler (FetchOutcome.response status t (Except.ok (successJson e b m)))
            = ⟨200, successJson e b m⟩)
    ∧ (∀ err, parseAnalysisResult (failureJson err) = Except.ok (AnalysisResult.failure err)
        ∧ bestMoveHandler (FetchOutcome.response status t (Except.ok (failureJson err)))
            = ⟨200, failureJson err⟩) := by
  have hpass : ∀ j r, parseAnalysisResult j = Except.ok r →
      bestMoveHandler (FetchOutcome.response status t (Except.ok j)) = ⟨200, renderResult r⟩ := by
    intro j r hp
    simp [bestMoveHandler, h, hp]
  refine ⟨hpass, ?_, ?_⟩
  · intro e b m
    have hp : parseAnalysisResult (successJson e b m)
        = Except.ok (AnalysisResult.success e b m) := by
      cases m <;> rfl
    refine ⟨hp, ?_⟩
    have := hpass (successJson e b m) (AnalysisResult.success e b m) hp
    cases m <;> exact this
  · intro err
    exact ⟨rfl, hpass (failureJson err) (AnalysisResult.failure err) rfl⟩

/-- Witness for C1 at the spec's example: status 200 with body
`{"success":true,"evaluation":0.5,"bestmove":"e2e4","mate":null}` is passed
through unchanged with HTTP 200. -/
theorem c1_witness :
    respOk 200 = true ∧
    bestMoveHandler (FetchOutcome.response 200 "OK"
        (Except.ok (successJson (1/2) "e2e4" none)))
      = ⟨200, successJson (1/2) "e2e4" none⟩ :=
  ⟨rfl, ((c1_success_passthrough 200 "OK" rfl).2.1 (1/2) "e2e4" none).2⟩

/-- Claim C2: every non-2xx upstream status yields HTTP 500 with body
`{success:false, error:"Stockfish API returned <code>: <text>"}`. -/
theorem c2_upstream_http_error (status : Nat) (t : String) (body : Except (Option String) Json)
    (h : respOk status = false) :
    bestMoveHandler (FetchOutcome.response status t body)
      = ⟨500, Json.obj [("success", Json.bool false),
          ("error", Json.str ("Stockfish API returned " ++ toString status ++ ": " ++ t))]⟩ := by
  simp [bestMoveHandler, h, upstreamErrBody]

/-- Witness for C2 at the spec's example: a 503 "Service Unavailable"
upstream response yields HTTP 500 with the exact error string
"Stockfish API returned 503: Service Unavailable". -/
theorem c2_witness :
    respOk 503 = false ∧
    bestMoveHandler (FetchOutcome.response 503 "Service Unavailable" (Except.ok Json.null))
      = ⟨500, Json.obj [("success", Json.bool false),
          ("error", Json.str "Stockfish API returned 503: Service Unavailable")]⟩ :=
  ⟨rfl, c2_upstream_http_error 503 "Service Unavailable" (Except.ok Json.null) rfl⟩

/-- Claim C3: a 2xx upstream response whose parsed JSON body matches neither
variant of the discriminated union yields HTTP 500 with body
`{success:false, error:"Invalid response format from Stockfish API",
details: <violations>}`, and the details list is non-empty. -/
theorem c3_schema_violation (status : Nat) (t : String) (j : Json) (issues : List ZodIssue)
    (h : respOk status = true) (hp : parseAnalysisResult j = Except.error issues) :
    bestMoveHandler (FetchOutcome.response status t (Except.ok j))
      = ⟨500, Json.obj [("success", Json.bool false),
          ("error", Json.str "Invalid response format from Stockfish API"),
          ("details", Json.arr (issues.map renderIssue))]⟩
    ∧ issues.map renderIssue ≠ [] := by
  constructor
  · simp [bestMoveHandler, h, hp, schemaErrBody]
  · have hne := parseAnalysisResult_error_ne_nil j issues hp
    simpa using hne

/-- Witness for C3 at the spec's example: a 200 response with body
`{"success":true,"evaluation":"not-a-number"}` yields HTTP 500 with the
schema-violation body and a non-empty details list. -/
theorem c3_witness :
    bestMoveHandler (FetchOutcome.response 200 "OK"
        (Except.ok (Json.obj [("success", Json.bool true),
                              ("evaluation", Json.str "not-a-number")])))
      = ⟨500, Json.obj [("success", Json.bool false),
          ("error", Json.str "Invalid response format from Stockfish API"),
          ("details", Json.arr
            ([ZodIssue.mk ["evaluation"] "invalid_type",
              ZodIssue.mk ["bestmove"] "invalid_type",
              ZodIssue.mk ["mate"] "invalid_type"].map renderIssue))]⟩
    ∧ ([ZodIssue.mk ["evaluation"] "invalid_type",
        ZodIssue.mk ["bestmove"] "invalid_type",
        ZodIssue.mk ["mate"] "invalid_type"].map renderIssue) ≠ [] :=
  c3_schema_violation 200 "OK" _ _ rfl rfl

/-- Counterexample to claim C4: a 2xx response whose body fails to parse as
JSON is handled by the catch-all branch, not the schema-violation branch:
the body carries the parse error's own message, not
"Invalid response format from Stockfish API", and has no `details` field. -/
theorem c4_counterexample :
    bestMoveHandler (FetchOutcome.response 200 "OK"
        (Except.error (some "Unexpected end of JSON input")))
      = ⟨500, Json.obj [("success", Json.bool false),
          ("error", Json.str "Unexpected end of JSON input")]⟩
    ∧ jsonField (bestMoveHandler (FetchOutcome.response 200 "OK"
        (Except.error (some "Unexpected end of JSON input")))).body "details" = none
    ∧ "Unexpected end of JSON input" ≠ "Invalid response format from Stockfish API" := by
  refine ⟨rfl, rfl, ?_⟩
  decide

/-- Claim C4 as amended: a 2xx response whose body cannot be parsed as JSON
yields HTTP 500, but through the catch-all branch: the body is
`{success:false, error: <the parse error's message, or "Unknown error
occurred" for a non-Error throw>}`, without the schema-violation message or
a `details` field. -/
theorem c4_parse_failure_catch_all (status : Nat) (t : String) (m : Option String)
    (h : respOk status = true) :
    bestMoveHandler (FetchOutcome.response status t (Except.error m))
      = ⟨500, Json.obj [("success", Json.bool false),
          ("error", Json.str (match m with
                              | some s => s
                              | none => "Unknown error occurred"))]⟩ := by
  simp [bestMoveHandler, h, catchAllBody]

/-- Witness for the amended C4: a 200 response with an unparseable body and
a non-Error throw yields the catch-all 500 body. -/
theorem c4_witness :
    respOk 200 = true ∧
    bestMoveHandler (FetchOutcome.response 200 "OK" (Except.error none))
      = ⟨500, Json.obj [("success", Json.bool false),
          ("error", Json.str "Unknown error occurred")]⟩ :=
  ⟨rfl, c4_parse_failure_catch_all 200 "OK" none rfl⟩

/-- Counterexample to claim C5: the validator does not require `fen` to be
non-empty. A request with `fen` present but equal to the empty string
(`?fen=`) passes validation (`z.string()` accepts ""), contradicting
"accepts exactly when fen is present and non-empty". -/
theorem c5_counterexample :
    (∃ r, parseQuery ⟨some "", none⟩ = Except.ok r)
    ∧ ¬ ((QueryParams.mk (some "") none).fen ≠ some "") :=
  ⟨⟨⟨"", "10"⟩, rfl⟩, fun h => h rfl⟩

/-- Claim C5 as amended: the validator accepts exactly when `fen` is present
(any string value, the empty string included; no FEN grammar checking, no
constraint on `depth`); when `fen` is missing the request fails validation
with HTTP 400 before the handler runs and no outbound call is made (the
response does not depend on the fetch function). -/
theorem c5_fen_presence (q : QueryParams) :
    ((∃ r, parseQuery q = Except.ok r) ↔ q.fen ≠ none)
    ∧ (q.fen = none → ∀ f1 f2 : String → FetchOutcome,
        bestMoveRoute q f1 = bestMoveRoute q f2 ∧ (bestMoveRoute q f1).status = 400) := by
  obtain ⟨f, d⟩ := q
  constructor
  · cases f with
    | none => simp [parseQuery]
    | some s => simp [parseQuery]
  · intro h f1 f2
    cases f with
    | none => exact ⟨rfl, rfl⟩
    | some s => exact absurd h (by simp)

/-- Witness for the amended C5: with `fen` missing the route answers 400 and
the result is the same for two fetch functions with different outcomes. -/
theorem c5_witness :
    bestMoveRoute ⟨none, none⟩ (fun _ => FetchOutcome.thrown none)
      = bestMoveRoute ⟨none, none⟩
          (fun _ => FetchOutcome.response 200 "OK" (Except.ok Json.null))
    ∧ (bestMoveRoute ⟨none, none⟩ (fun _ => FetchOutcome.thrown none)).status = 400 :=
  (c5_fen_presence ⟨none, none⟩).2 rfl
    (fun _ => FetchOutcome.thrown none)
    (fun _ => FetchOutcome.response 200 "OK" (Except.ok Json.null))

/-- Claim C6: when `depth` is omitted the validator supplies the default
"10" and the constructed URL ends in `depth=10` (so it contains it as a
substring); when `depth` is present, its string value is forwarded verbatim
as the suffix of the URL, with no numeric check. -/
theorem c6_depth_default (f d : String) :
    (parseQuery ⟨some f, none⟩ = Except.ok ⟨f, "10"⟩
      ∧ buildUrl f "10" = urlBase ++ encodeURIComponent f ++ "&depth=10"
      ∧ 0 < countOccur "depth=10".data (buildUrl f "10").data)
    ∧ (parseQuery ⟨some f, some d⟩ = Except.ok ⟨f, d⟩
      ∧ buildUrl f d = (urlBase ++ encodeURIComponent f ++ "&depth=") ++ d) := by
  refine ⟨⟨rfl, ?_, ?_⟩, rfl, rfl⟩
  · apply String.ext
    simp only [buildUrl, String.data_append, List.append_assoc]
    rfl
  · apply countOccur_pos_of_parts _
      (urlBase.data ++ (encodeURIComponent f).data ++ [Char.ofNat 38]) []
    simp only [buildUrl, String.data_append, List.append_assoc]
    rfl

/-- Counterexample to claim C7: for the accepted fen "s" the URL-encoded
form of the fen (the one-character string "s") occurs more than once in the
constructed URL, so "exactly once" fails. -/
theorem c7_counterexample :
    parseQuery ⟨some "s", some "10"⟩ = Except.ok ⟨"s", "10"⟩
    ∧ ¬ (countOccur (encodeURIComponent "s").data (buildUrl "s" "10").data = 1) :=
  ⟨rfl, by decide⟩

/-- Claim C7 as amended: for every `fen`, the constructed URL contains the
URL-encoded form of `fen` at least once as a substring (it appears
immediately after the fixed `?fen=` prefix); occurring exactly once fails
for fens whose encoded form also occurs elsewhere in the URL. -/
theorem c7_encoded_fen_in_url (fen depth : String) :
    0 < countOccur (encodeURIComponent fen).data (buildUrl fen depth).data := by
  apply countOccur_pos_of_parts _ urlBase.data ("&depth=".data ++ depth.data)
  simp only [buildUrl, String.data_append, List.append_assoc]

/-- Claim C8: every error inside the handler is caught and translated to an
HTTP 500 JSON body with `success:false` (no outcome escapes to a framework
error page: every outcome is either 200 or such a 500), and the catch-all
fallback body carries the thrown Error's message, or "Unknown error
occurred" for a non-Error throw. -/
theorem c8_all_errors_translated :
    (∀ outcome, (bestMoveHandler outcome).status = 200
      ∨ ((bestMoveHandler outcome).status = 500
          ∧ jsonField (bestMoveHandler outcome).body "success" = some (Json.bool false)))
    ∧ (∀ m, bestMoveHandler (FetchOutcome.thrown m)
        = ⟨500, Json.obj [("success", Json.bool false),
            ("error", Json.str (match m with
                                | some s => s
                                | none => "Unknown error occurred"))]⟩) := by
  constructor
  · intro outcome
    cases outcome with
    | thrown m => exact Or.inr ⟨rfl, rfl⟩
    | response status t body =>
      simp only [bestMoveHandler]
      split
      · exact Or.inr ⟨rfl, rfl⟩
      · cases body with
        | error m => exact Or.inr ⟨rfl, rfl⟩
        | ok j =>
          cases hp : parseAnalysisResult j with
          | error issues => simp [hp, schemaErrBody, jsonField, lookupField]
          | ok r => simp [hp]
  · intro m
    rfl

/-- Counterexample to claim C9: an environment value that is present but
equal to the empty string is falsy in JavaScript, so the process exits with
code 1 even though all three values are present. -/
theorem c9_counterexample :
    startup (some "") (some "addr") (some "net") = StartupResult.exit 1
    ∧ ¬ (startup (some "") (some "addr") (some "net") = StartupResult.serve 4021) := by
  decide

/-- Claim C9 as amended: if any of the three environment values is absent
(or present but empty, which JavaScript truthiness treats the same), the
process exits with status 1 before serving; if all three are present and
non-empty it serves on the fixed port 4021. -/
theorem c9_startup (f p n : Option String) :
    ((f = none ∨ f = some "" ∨ p = none ∨ p = some "" ∨ n = none ∨ n = some "") →
        startup f p n = StartupResult.exit 1)
    ∧ (truthy f = true → truthy p = true → truthy n = true →
        startup f p n = StartupResult.serve 4021) := by
  constructor
  · intro h
    rcases h with h | h | h | h | h | h <;> subst h <;> simp [startup, truthy]
  · intro hf hp hn
    simp [startup, hf, hp, hn]

/-- Witness for the amended C9: a missing facilitator URL exits with code 1,
a present-but-empty payout address exits with code 1, and three non-empty
values serve on port 4021. -/
theorem c9_witness :
    startup none (some "addr") (some "net") = StartupResult.exit 1
    ∧ startup (some "https://facilitator.example") (some "") (some "net")
        = StartupResult.exit 1
    ∧ startup (some "https://facilitator.example") (some "addr") (some "net")
        = StartupResult.serve 4021 :=
  ⟨(c9_startup none (some "addr") (some "net")).1 (Or.inl rfl),
   (c9_startup (some "https://facilitator.example") (some "") (some "net")).1
     (Or.inr (Or.inr (Or.inr (Or.inl rfl)))),
   (c9_startup (some "https://facilitator.example") (some "addr") (some "net")).2 rfl rfl rfl⟩

/-- Claim C10: the schema published in the discovery manifest (inputSchema:
`depth` an optional number defaulting to 10) differs from the schema the
route enforces (`depth` an optional string defaulting to "10"): each
accepts a request the other rejects, and the two defaults disagree. -/
theorem c10_manifest_schema_mismatch :
    inputSchemaAccepts (Json.obj [("fen", Json.str "x"), ("depth", Json.num 10)]) = true
    ∧ querySchemaAccepts (Json.obj [("fen", Json.str "x"), ("depth", Json.num 10)]) = false
    ∧ querySchemaAccepts (Json.obj [("fen", Json.str "x"), ("depth", Json.str "10")]) = true
    ∧ inputSchemaAccepts (Json.obj [("fen", Json.str "x"), ("depth", Json.str "10")]) = false
    ∧ inputSchemaParse (Json.obj [("fen", Json.str "x")]) = some ("x", Json.num 10)
    ∧ querySchemaParse (Json.obj [("fen", Json.str "x")]) = some ("x", Json.str "10")
    ∧ Json.num 10 ≠ Json.str "10" := by
  refine ⟨rfl, rfl, rfl, rfl, rfl, rfl, ?_⟩
  intro h
  exact Json.noConfusion h
